import Mathlib

/-!
Verification of the SHT1x temperature/humidity sensor driver (SHT1x.cpp).

The driver's arithmetic (C `float`) is modelled with exact rationals `ℚ`;
machine integers (`int`, values are non-negative 16-bit raw samples here)
are modelled with `ℕ`, except the explicit `uint8_t` return of `shiftIn`,
which truncates modulo 256.  Reading an uninitialized member (`_D1C`,
`_D1F` when no table interval is triggered) is modelled with `Option`:
`none` means the member was never assigned.  The environment the driver
bit-bangs against (acknowledgment bits, the data line during polling, the
millisecond clock, the bits sampled during shift-in) is an explicit `Env`
record, and the mutable instance state (`_temperatureRaw`, coefficients)
is passed explicitly.
-/

/-! ## Calibration coefficients (SHT1x::_setConversionCoeffs, lines 44-64) -/

/-- Model of `SHT1x::_linearInterpolation` (SHT1x.cpp lines 61-64):
`(coeffA-coeffB)/valA*input+coeffB`. -/
def linearInterpolation (coeffA coeffB valA input : ℚ) : ℚ :=
  (coeffA - coeffB) / valA * input + coeffB

/-- Celsius offset table `coeffsC` from `_setConversionCoeffs` (line 48). -/
def coeffsC : List ℚ := [40.1, 39.8, 39.7, 39.6, 39.4]

/-- Fahrenheit offset table `coeffsF` from `_setConversionCoeffs` (line 49). -/
def coeffsF : List ℚ := [40.2, 39.6, 39.5, 39.3, 38.9]

/-- Voltage table `vals` from `_setConversionCoeffs` (line 50). -/
def vals : List ℚ := [5, 4, 3.5, 3, 2.5]

/-- The selection loop of `_setConversionCoeffs` (lines 52-58): scan the
index list and return the first index `i` with `voltage > vals[i]`
(`none` when no index fires, i.e. the loop falls off the end and the
offsets are never assigned). -/
def selectIdx (voltage : ℚ) : List ℕ → Option ℕ
  | [] => none
  | i :: rest => if vals.getD i 0 < voltage then some i else selectIdx voltage rest

/-- The four coefficient members of the `SHT1x` instance.  `_D1C`/`_D1F`
are `Option`: `none` models the C++ members left uninitialized when the
selection loop never fires. -/
structure Coeffs where
  D1C : Option ℚ
  D1F : Option ℚ
  D2C : ℚ
  D2F : ℚ
deriving Repr, DecidableEq

/-- Model of `SHT1x::_setConversionCoeffs` (lines 44-59): always assigns
the slopes `_D2C = 0.01`, `_D2F = 0.018`; scans `i = 1..4` for the first
`i` with `voltage > vals[i]` and, when one fires, assigns
`_D1C = -_linearInterpolation(coeffsC[i-1], coeffsC[i], vals[i-1], voltage)`
and `_D1F` analogously from `coeffsF`. -/
def setConversionCoeffs (voltage : ℚ) : Coeffs :=
  match selectIdx voltage [1, 2, 3, 4] with
  | none => { D1C := none, D1F := none, D2C := 0.01, D2F := 0.018 }
  | some i =>
    { D1C := some (-(linearInterpolation (coeffsC.getD (i - 1) 0) (coeffsC.getD i 0)
        (vals.getD (i - 1) 0) voltage))
      D1F := some (-(linearInterpolation (coeffsF.getD (i - 1) 0) (coeffsF.getD i 0)
        (vals.getD (i - 1) 0) voltage))
      D2C := 0.01
      D2F := 0.018 }

/-! ## Raw-to-physical conversion (parseTemperatureC/F, parseHumidity) -/

/-- Model of `SHT1x::parseTemperatureC` (lines 79-81): `(raw*_D2C)+_D1C`.
Returns `none` when `_D1C` was never initialized. -/
def parseTemperatureC (c : Coeffs) (raw : ℕ) : Option ℚ :=
  c.D1C.map (fun d1c => (raw : ℚ) * c.D2C + d1c)

/-- Model of `SHT1x::parseTemperatureF` (lines 93-96): `(raw*_D2F)+_D1F`. -/
def parseTemperatureF (c : Coeffs) (raw : ℕ) : Option ℚ :=
  c.D1F.map (fun d1f => (raw : ℚ) * c.D2F + d1f)

/-- Model of `SHT1x::parseHumidity` (lines 147-169): linear correction
`C1 + C2*raw + C3*raw*raw`, then temperature compensation
`(temperature - 25.0)*(T1 + T2*raw) + linearHumidity` where `temperature`
is `parseTemperatureC(_temperatureRaw)` on the cached raw temperature. -/
def parseHumidity (c : Coeffs) (temperatureRaw : ℕ) (raw : ℕ) : Option ℚ :=
  let C1 : ℚ := -4.0
  let C2 : ℚ := 0.0405
  let C3 : ℚ := -0.0000028
  let T1 : ℚ := 0.01
  let T2 : ℚ := 0.00008
  let linearHumidity : ℚ := C1 + C2 * (raw : ℚ) + C3 * (raw : ℚ) * (raw : ℚ)
  (parseTemperatureC c temperatureRaw).map (fun temperature =>
    (temperature - 25.0) * (T1 + T2 * (raw : ℚ)) + linearHumidity)

/-! ## Bit-level protocol (shiftIn, getData16SHT, waitForResultSHT, sendCommandSHT) -/

/-- The loop accumulator of `SHT1x::shiftIn` (lines 173-184): for each
sampled data-line bit, `ret = ret*2 + digitalRead(_dataPin)`.  The list
holds the levels sampled at the successive clock pulses, first pulse
first. -/
def shiftInAcc (bits : List Bool) : ℕ :=
  bits.foldl (fun ret b => ret * 2 + b.toNat) 0

/-- Model of `SHT1x::shiftIn` (lines 173-184).  The accumulator is an
`int`, but the function's return type is `uint8_t`, so the returned value
is the accumulator truncated modulo 256. -/
def shiftIn (bits : List Bool) : ℕ :=
  shiftInAcc bits % 256

/-- Model of `SHT1x::getData16SHT` (lines 229-251): shift in 8 bits for
the high byte, multiply by 256, acknowledge, shift in 8 more bits and
combine with bitwise OR (`val |= shiftIn(...)`).  `hiBits` are the levels
sampled for the high byte (sampled first), `loBits` for the low byte. -/
def getData16SHT (hiBits loBits : List Bool) : ℕ :=
  let val := shiftIn hiBits * 256
  val ||| shiftIn loBits

/-- Guard of the polling loop in `SHT1x::waitForResultSHT` (line 224):
`digitalRead(_dataPin) && (millis()-start) < TIMEOUT_MILLIS`.
`dataLine k` is the level `digitalRead` returns at the k-th iteration,
`ms k` the value `millis()` returns there, `start` the value of `millis()`
captured on entry.  `TIMEOUT_MILLIS` is defined in the header SHT1x.h,
which is not part of the sources here; per the spec it is a fixed timeout
interval, modelled as the parameter `T`.  Subtraction is `ℕ` truncated
subtraction, matching the unsigned `millis()-start`. -/
def waitGuard (dataLine : ℕ → Bool) (ms : ℕ → ℕ) (start T k : ℕ) : Bool :=
  dataLine k && decide (ms k - start < T)

/-- Environment a driver transaction runs against: the two acknowledgment
levels read by `sendCommandSHT`, the data-line and clock behavior seen by
the polling loop, and the levels sampled during the two 8-bit shift-ins.
`msUnbounded` states that `millis()` is a monotonic clock that grows
without bound, the property the busy-wait loop relies on. -/
structure Env where
  ack1 : Bool
  ack2 : Bool
  dataLine : ℕ → Bool
  ms : ℕ → ℕ
  start : ℕ
  timeout : ℕ
  msUnbounded : ∀ n : ℕ, ∃ k, n ≤ ms k
  hiBits : List Bool
  loBits : List Bool

theorem waitGuard_exists_false (e : Env) :
    ∃ k, waitGuard e.dataLine e.ms e.start e.timeout k = false := by
  obtain ⟨k, hk⟩ := e.msUnbounded (e.start + e.timeout)
  refine ⟨k, ?_⟩
  have h : ¬ (e.ms k - e.start < e.timeout) := by omega
  simp [waitGuard, h]

/-- Model of `SHT1x::waitForResultSHT` (lines 217-225): busy-poll until
the guard first fails, i.e. until the data line reads low or the elapsed
time reaches the timeout.  Returns the number of loop iterations executed
(the C function returns `void`; the iteration count is the observable
shape of the loop). -/
def waitForResultSHT (e : Env) : ℕ :=
  Nat.find (waitGuard_exists_false e)

/-- Model of `SHT1x::sendCommandSHT` (lines 188-213): emits the start
sequence and the command, then reads one acknowledgment bit with the
clock high and a second after lowering the clock, storing both into the
local `ack` which is never used; the function returns `void` for every
acknowledgment value. -/
def sendCommandSHT (command : ℕ) (e : Env) : Unit :=
  let ack := e.ack1
  let ack := e.ack2
  ()

/-! ## Instance state and the public read operations -/

/-- Mutable state of an `SHT1x` instance relevant to the conversions:
the four calibration coefficients and the cached raw temperature
`_temperatureRaw`. -/
structure SHT1xState where
  coeffs : Coeffs
  temperatureRaw : ℕ

/-- Model of `SHT1x::readInTemperature` (lines 112-119): wait for the
result, read the 16-bit word, store it in `_temperatureRaw` and return
it. -/
def readInTemperature (s : SHT1xState) (e : Env) : ℕ × SHT1xState :=
  let _ := waitForResultSHT e
  let w := getData16SHT e.hiBits e.loBits
  (w, { s with temperatureRaw := w })

/-- Model of `SHT1x::readInHumidity` (lines 139-145): wait for the
result and return the 16-bit word; the instance state is untouched. -/
def readInHumidity (s : SHT1xState) (e : Env) : ℕ × SHT1xState :=
  let _ := waitForResultSHT e
  (getData16SHT e.hiBits e.loBits, s)

/-- Model of `SHT1x::readTemperatureC` (lines 72-77): request (command
0b00000011), read in, parse. -/
def readTemperatureC (s : SHT1xState) (e : Env) : Option ℚ × SHT1xState :=
  let _ := sendCommandSHT 3 e
  let r := readInTemperature s e
  (parseTemperatureC r.2.coeffs r.1, r.2)

/-- Model of `SHT1x::readTemperatureF` (lines 87-91). -/
def readTemperatureF (s : SHT1xState) (e : Env) : Option ℚ × SHT1xState :=
  let _ := sendCommandSHT 3 e
  let r := readInTemperature s e
  (parseTemperatureF r.2.coeffs r.1, r.2)

/-- Model of `SHT1x::readHumidity` (lines 124-128): request (command
0b00000101), read in, parse against the cached raw temperature. -/
def readHumidity (s : SHT1xState) (e : Env) : Option ℚ × SHT1xState :=
  let _ := sendCommandSHT 5 e
  let r := readInHumidity s e
  (parseHumidity r.2.coeffs r.2.temperatureRaw r.1, r.2)

/-! ## Shared helper lemmas -/

theorem selectIdx_bracket (v : ℚ) (i : ℕ) (h1 : 1 ≤ i) (h2 : i ≤ 4)
    (h3 : vals.getD i 0 < v) (h4 : v ≤ vals.getD (i - 1) 0) :
    selectIdx v [1, 2, 3, 4] = some i := by
  interval_cases i <;>
    simp_all [selectIdx, vals] <;> split_ifs <;> first | rfl | (exfalso; linarith)

theorem setConversionCoeffs_D2 (w : ℚ) :
    (setConversionCoeffs w).D2C = 0.01 ∧ (setConversionCoeffs w).D2F = 0.018 := by
  cases h : selectIdx w [1, 2, 3, 4] <;> simp [setConversionCoeffs, h]

/-! ## C1 -/

/-- C1: for every supply voltage inside a bracketed interval of the
five-entry table (`vals[i] < voltage ≤ vals[i-1]` for some `i` in 1..4),
`_setConversionCoeffs` selects the first index `i` (scanning `i = 1..4`)
with `voltage > vals[i]`, sets the Celsius offset to
`-((coeffsC[i-1]-coeffsC[i])/vals[i-1]*voltage + coeffsC[i])`, the
Fahrenheit offset analogously from `coeffsF`, and always sets the slopes
to exactly 0.01 and 0.018 regardless of voltage. -/
theorem setConversionCoeffs_bracket_interpolation (v : ℚ) (i : ℕ)
    (h1 : 1 ≤ i) (h2 : i ≤ 4)
    (h3 : vals.getD i 0 < v) (h4 : v ≤ vals.getD (i - 1) 0) :
    selectIdx v [1, 2, 3, 4] = some i ∧
    (setConversionCoeffs v).D1C =
      some (-((coeffsC.getD (i - 1) 0 - coeffsC.getD i 0) / vals.getD (i - 1) 0 * v
        + coeffsC.getD i 0)) ∧
    (setConversionCoeffs v).D1F =
      some (-((coeffsF.getD (i - 1) 0 - coeffsF.getD i 0) / vals.getD (i - 1) 0 * v
        + coeffsF.getD i 0)) ∧
    ∀ w : ℚ, (setConversionCoeffs w).D2C = 0.01 ∧ (setConversionCoeffs w).D2F = 0.018 := by
  have hsel : selectIdx v [1, 2, 3, 4] = some i := selectIdx_bracket v i h1 h2 h3 h4
  exact ⟨hsel, by simp [setConversionCoeffs, hsel, linearInterpolation],
    by simp [setConversionCoeffs, hsel, linearInterpolation],
    fun w => setConversionCoeffs_D2 w⟩

/-- Witness for C1 at voltage 4.5, bracket index i = 1. -/
theorem setConversionCoeffs_bracket_interpolation_witness :
    selectIdx 4.5 [1, 2, 3, 4] = some 1 ∧
    (setConversionCoeffs 4.5).D1C =
      some (-((coeffsC.getD 0 0 - coeffsC.getD 1 0) / vals.getD 0 0 * 4.5
        + coeffsC.getD 1 0)) ∧
    (setConversionCoeffs 4.5).D1F =
      some (-((coeffsF.getD 0 0 - coeffsF.getD 1 0) / vals.getD 0 0 * 4.5
        + coeffsF.getD 1 0)) ∧
    ∀ w : ℚ, (setConversionCoeffs w).D2C = 0.01 ∧ (setConversionCoeffs w).D2F = 0.018 :=
  setConversionCoeffs_bracket_interpolation 4.5 1 (by norm_num) (by norm_num)
    (by norm_num [vals]) (by norm_num [vals])

/-! ## C2 -/

/-- C2 counterexample: at voltage 6, strictly above every table entry,
the selection loop DOES fire (its first comparison is `6 > vals[1] = 4`)
and both offsets are assigned, contradicting the claim that `_D1C` and
`_D1F` remain unset for voltages above the whole table. -/
theorem setConversionCoeffs_above_table_counterexample :
    (5 : ℚ) < 6 ∧
    (setConversionCoeffs 6).D1C ≠ none ∧ (setConversionCoeffs 6).D1F ≠ none := by
  refine ⟨by norm_num, ?_, ?_⟩ <;> norm_num [setConversionCoeffs, selectIdx, vals] <;> simp

/-- C2 (amended): for every supply voltage strictly greater than every
table entry (voltage > 5), the loop fires immediately at the FIRST
interval (`i = 1`, since `voltage > vals[1] = 4`), so `_D1C` and `_D1F`
ARE assigned, by extrapolating the first bracket's interpolation
formula. -/
theorem setConversionCoeffs_above_table (v : ℚ) (h : 5 < v) :
    selectIdx v [1, 2, 3, 4] = some 1 ∧
    (setConversionCoeffs v).D1C =
      some (-((coeffsC.getD 0 0 - coeffsC.getD 1 0) / vals.getD 0 0 * v
        + coeffsC.getD 1 0)) ∧
    (setConversionCoeffs v).D1F =
      some (-((coeffsF.getD 0 0 - coeffsF.getD 1 0) / vals.getD 0 0 * v
        + coeffsF.getD 1 0)) := by
  have h4 : vals.getD 1 0 < v := by simp [vals]; linarith
  have hsel : selectIdx v [1, 2, 3, 4] = some 1 := by
    show (if vals.getD 1 0 < v then some 1 else selectIdx v [2, 3, 4]) = some 1
    rw [if_pos h4]
  exact ⟨hsel, by simp [setConversionCoeffs, hsel, linearInterpolation],
    by simp [setConversionCoeffs, hsel, linearInterpolation]⟩

/-- Witness for the amended C2 at voltage 6. -/
theorem setConversionCoeffs_above_table_witness :
    selectIdx 6 [1, 2, 3, 4] = some 1 ∧
    (setConversionCoeffs 6).D1C =
      some (-((coeffsC.getD 0 0 - coeffsC.getD 1 0) / vals.getD 0 0 * 6
        + coeffsC.getD 1 0)) ∧
    (setConversionCoeffs 6).D1F =
      some (-((coeffsF.getD 0 0 - coeffsF.getD 1 0) / vals.getD 0 0 * 6
        + coeffsF.getD 1 0)) :=
  setConversionCoeffs_above_table 6 (by norm_num)

/-! ## C3 -/

/-- C3 counterexample: with voltage exactly 5 the loop's first test at
`i = 1` compares against `vals[1] = 4`, not against 5, so `5 > vals[1]`
HOLDS and the loop selects index 1 at once instead of falling through to
the next breakpoint. -/
theorem selectIdx_at_five_counterexample :
    vals.getD 1 0 = 4 ∧ (4 : ℚ) < 5 ∧ selectIdx 5 [1, 2, 3, 4] = some 1 := by
  refine ⟨by norm_num [vals], by norm_num, ?_⟩
  norm_num [selectIdx, vals]

/-- C3 (amended): with voltage exactly 5 the loop fires at `i = 1`
already (the `i = 1` comparison is against `vals[1] = 4`, which 5
exceeds), and the bracket it selects is the same one selected for any
voltage slightly above 4: both select index 1, hence the same bracket
coefficients `(coeffsC[0], coeffsC[1])`; concretely the Celsius offset at
voltage 5 is `-40.1`. -/
theorem selectIdx_at_five_matches_above_four (v : ℚ) (h : 4 < v) :
    selectIdx 5 [1, 2, 3, 4] = some 1 ∧
    selectIdx v [1, 2, 3, 4] = some 1 ∧
    (setConversionCoeffs 5).D1C = some (-40.1) := by
  have hsel5 : selectIdx 5 [1, 2, 3, 4] = some 1 :=
    selectIdx_bracket 5 1 (by norm_num) (by norm_num) (by norm_num [vals])
      (by norm_num [vals])
  have h4 : vals.getD 1 0 < v := by simp [vals]; linarith
  have hselv : selectIdx v [1, 2, 3, 4] = some 1 := by
    show (if vals.getD 1 0 < v then some 1 else selectIdx v [2, 3, 4]) = some 1
    rw [if_pos h4]
  refine ⟨hsel5, hselv, ?_⟩
  norm_num [setConversionCoeffs, hsel5, linearInterpolation, coeffsC, vals]

/-- Witness for the amended C3 at voltage 4.1. -/
theorem selectIdx_at_five_matches_above_four_witness :
    selectIdx 5 [1, 2, 3, 4] = some 1 ∧
    selectIdx 4.1 [1, 2, 3, 4] = some 1 ∧
    (setConversionCoeffs 5).D1C = some (-40.1) :=
  selectIdx_at_five_matches_above_four 4.1 (by norm_num)

/-! ## C4 -/

/-- C4: for every raw humidity sample and cached raw temperature (with
the Celsius offset initialized), `parseHumidity` returns
`(parseTemperatureC(t) - 25.0)*(0.01 + 0.00008*raw)
 + (-4.0 + 0.0405*raw + (-0.0000028)*raw*raw)`; in particular with
cached raw temperature 0 and raw humidity 0 it equals
`(celsius(0) - 25.0)*0.01 + (-4.0)` exactly. -/
theorem parseHumidity_formula (c : Coeffs) (o : ℚ) (h : c.D1C = some o)
    (t raw : ℕ) :
    parseHumidity c t raw =
      some (((t : ℚ) * c.D2C + o - 25.0) * (0.01 + 0.00008 * (raw : ℚ))
        + (-4.0 + 0.0405 * (raw : ℚ) + (-0.0000028) * (raw : ℚ) * (raw : ℚ))) ∧
    parseHumidity c 0 0 =
      (parseTemperatureC c 0).map (fun celsius0 => (celsius0 - 25.0) * 0.01 + (-4.0)) := by
  constructor
  · simp only [parseHumidity, parseTemperatureC, h, Option.map_some]
    norm_num
  · simp only [parseHumidity, parseTemperatureC, h, Option.map_some]
    norm_num

/-- Witness for C4 with offset -40.1 (the voltage-5 calibration), cached
raw temperature 7000 and raw humidity 1500. -/
theorem parseHumidity_formula_witness :
    (setConversionCoeffs 5).D1C = some (-40.1) ∧
    (parseHumidity (setConversionCoeffs 5) 7000 1500 =
      some (((7000 : ℚ) * (setConversionCoeffs 5).D2C + (-40.1) - 25.0)
          * (0.01 + 0.00008 * (1500 : ℚ))
        + (-4.0 + 0.0405 * (1500 : ℚ) + (-0.0000028) * (1500 : ℚ) * (1500 : ℚ))) ∧
      parseHumidity (setConversionCoeffs 5) 0 0 =
        (parseTemperatureC (setConversionCoeffs 5) 0).map
          (fun celsius0 => (celsius0 - 25.0) * 0.01 + (-4.0))) := by
  have h5 : (setConversionCoeffs 5).D1C = some (-40.1) := by
    norm_num [setConversionCoeffs, selectIdx, vals, linearInterpolation, coeffsC]
  exact ⟨h5, parseHumidity_formula (setConversionCoeffs 5) (-40.1) h5 7000 1500⟩

/-! ## C5 -/

/-- C5: for every raw sample, `parseTemperatureC` returns
`raw * _D2C + _D1C` and `parseTemperatureF` returns `raw * _D2F + _D1F`
(when the offsets are initialized); consequently `celsius(raw = 0)`
equals the Celsius offset coefficient. -/
theorem parseTemperature_linear (c : Coeffs) (oC oF : ℚ)
    (hC : c.D1C = some oC) (hF : c.D1F = some oF) (raw : ℕ) :
    parseTemperatureC c raw = some ((raw : ℚ) * c.D2C + oC) ∧
    parseTemperatureF c raw = some ((raw : ℚ) * c.D2F + oF) ∧
    parseTemperatureC c 0 = some oC := by
  refine ⟨by simp [parseTemperatureC, hC], by simp [parseTemperatureF, hF], ?_⟩
  simp [parseTemperatureC, hC]

/-- Witness for C5 with the voltage-5 calibration and raw sample 6000. -/
theorem parseTemperature_linear_witness :
    parseTemperatureC (setConversionCoeffs 5) 6000 =
      some ((6000 : ℚ) * (setConversionCoeffs 5).D2C + (-40.1)) ∧
    parseTemperatureF (setConversionCoeffs 5) 6000 =
      some ((6000 : ℚ) * (setConversionCoeffs 5).D2F + (-40.2)) ∧
    parseTemperatureC (setConversionCoeffs 5) 0 = some (-40.1) := by
  have hC : (setConversionCoeffs 5).D1C = some (-40.1) := by
    norm_num [setConversionCoeffs, selectIdx, vals, linearInterpolation, coeffsC]
  have hF : (setConversionCoeffs 5).D1F = some (-40.2) := by
    norm_num [setConversionCoeffs, selectIdx, vals, linearInterpolation, coeffsF]
  exact parseTemperature_linear (setConversionCoeffs 5) (-40.1) (-40.2) hC hF 6000

/-! ## C10 -/

/-- C10: for every voltage at or below 2.5 (the lowest table entry),
`_setConversionCoeffs` assigns the slopes `_D2C`/`_D2F` but no loop
iteration satisfies `voltage > vals[i]`, so the offsets `_D1C`/`_D1F`
are never assigned, and every subsequent `parseTemperatureC`,
`parseTemperatureF` and `parseHumidity` on that instance reads an
uninitialized offset (modelled: the conversion yields `none`). -/
theorem setConversionCoeffs_low_voltage_uninitialized (v : ℚ) (hv : v ≤ 2.5)
    (raw t : ℕ) :
    (setConversionCoeffs v).D1C = none ∧
    (setConversionCoeffs v).D1F = none ∧
    (setConversionCoeffs v).D2C = 0.01 ∧
    (setConversionCoeffs v).D2F = 0.018 ∧
    parseTemperatureC (setConversionCoeffs v) raw = none ∧
    parseTemperatureF (setConversionCoeffs v) raw = none ∧
    parseHumidity (setConversionCoeffs v) t raw = none := by
  have hsel : selectIdx v [1, 2, 3, 4] = none := by
    have h1 : ¬ (vals.getD 1 0 < v) := by simp [vals]; linarith
    have h2 : ¬ (vals.getD 2 0 < v) := by simp [vals]; linarith
    have h3 : ¬ (vals.getD 3 0 < v) := by simp [vals]; linarith
    have h4 : ¬ (vals.getD 4 0 < v) := by simp [vals]; linarith
    show (if vals.getD 1 0 < v then some 1 else selectIdx v [2, 3, 4]) = none
    rw [if_neg h1]
    show (if vals.getD 2 0 < v then some 2 else selectIdx v [3, 4]) = none
    rw [if_neg h2]
    show (if vals.getD 3 0 < v then some 3 else selectIdx v [4]) = none
    rw [if_neg h3]
    show (if vals.getD 4 0 < v then some 4 else selectIdx v []) = none
    rw [if_neg h4]
    rfl
  refine ⟨?_, ?_, ?_, ?_, ?_, ?_, ?_⟩ <;>
    simp [setConversionCoeffs, hsel, parseTemperatureC, parseTemperatureF, parseHumidity]

/-- Witness for C10 at voltage 2.5 with raw sample 7000 and cached raw
temperature 123. -/
theorem setConversionCoeffs_low_voltage_uninitialized_witness :
    (setConversionCoeffs 2.5).D1C = none ∧
    (setConversionCoeffs 2.5).D1F = none ∧
    (setConversionCoeffs 2.5).D2C = 0.01 ∧
    (setConversionCoeffs 2.5).D2F = 0.018 ∧
    parseTemperatureC (setConversionCoeffs 2.5) 7000 = none ∧
    parseTemperatureF (setConversionCoeffs 2.5) 7000 = none ∧
    parseHumidity (setConversionCoeffs 2.5) 123 7000 = none :=
  setConversionCoeffs_low_voltage_uninitialized 2.5 (by norm_num) 7000 123

/-! ## C6 -/

theorem foldl_acc_lt (bits : List Bool) : ∀ a : ℕ,
    bits.foldl (fun ret b => ret * 2 + b.toNat) a < (a + 1) * 2 ^ bits.length := by
  induction bits with
  | nil => intro a; simp
  | cons b bs ih =>
    intro a
    simp only [List.foldl_cons, List.length_cons]
    calc bs.foldl (fun ret b => ret * 2 + b.toNat) (a * 2 + b.toNat)
        < (a * 2 + b.toNat + 1) * 2 ^ bs.length := ih _
      _ ≤ ((a + 1) * 2) * 2 ^ bs.length :=
          Nat.mul_le_mul_right _ (by have := Bool.toNat_le b; omega)
      _ = (a + 1) * 2 ^ (bs.length + 1) := by rw [pow_succ]; ring

theorem shiftInAcc_lt (bits : List Bool) : shiftInAcc bits < 2 ^ bits.length := by
  have h := foldl_acc_lt bits 0
  simpa [shiftInAcc] using h

theorem two_pow_mul_lor_eq_add (k : ℕ) : ∀ a b : ℕ, b < 2 ^ k →
    2 ^ k * a ||| b = 2 ^ k * a + b := by
  induction k with
  | zero =>
    intro a b hb
    have hb0 : b = 0 := by omega
    subst hb0
    simp
  | succ k ih =>
    intro a b hb
    have hb2 : b / 2 < 2 ^ k := by
      have hp : (2 : ℕ) ^ (k + 1) = 2 ^ k * 2 := pow_succ 2 k
      omega
    have h1 : 2 ^ (k + 1) * a = Nat.bit false (2 ^ k * a) := by
      rw [Nat.bit_val, pow_succ]; simp; ring
    have h2 : b = Nat.bit b.bodd b.div2 := (Nat.bit_decomp b).symm
    have hb' : 2 * b.div2 + b.bodd.toNat = b :=
      (Nat.bit_val b.bodd b.div2).symm.trans (Nat.bit_decomp b)
    rw [h1]
    conv_lhs => rw [h2]
    rw [Nat.lor_bit]
    simp only [Bool.false_or]
    rw [Nat.bit_val, ih a b.div2 (by rw [Nat.div2_val]; exact hb2)]
    conv_rhs => rw [← hb']
    rw [Nat.bit_val]
    simp only [Bool.toNat_false]
    ring

theorem mul_256_lor_eq_add (a b : ℕ) (hb : b < 256) :
    a * 256 ||| b = a * 256 + b := by
  have h := two_pow_mul_lor_eq_add 8 a b (by norm_num; omega)
  norm_num at h
  rw [mul_comm a 256]
  exact h

/-- C6 counterexample: `shiftIn` has return type `uint8_t`, so over 9
clock pulses that all sample a high level the loop accumulator is 511
but the function returns 255, not the accumulator. -/
theorem shiftIn_truncation_counterexample :
    shiftInAcc (List.replicate 9 true) = 511 ∧
    shiftIn (List.replicate 9 true) = 255 := by
  constructor <;> rfl

/-- C6 (amended): `shiftIn` builds the accumulator
`accumulator = accumulator*2 + sampled bit` per clock pulse
(most-significant-bit first) and returns it truncated to `uint8_t`
(modulo 256), which is the accumulator itself whenever at most 8 bits
are shifted in; `getData16SHT` returns the first (high) 8-bit shift-in
times 256, bitwise-OR'd with the second (low) 8-bit shift-in, which
equals `highByte*256 + lowByte`. -/
theorem shiftIn_msb_first_getData16 (hiBits loBits : List Bool)
    (hh : hiBits.length = 8) (hl : loBits.length = 8) :
    (∀ (bits : List Bool) (b : Bool),
      shiftInAcc (bits ++ [b]) = shiftInAcc bits * 2 + b.toNat) ∧
    shiftIn hiBits = shiftInAcc hiBits ∧
    shiftIn loBits = shiftInAcc loBits ∧
    getData16SHT hiBits loBits = shiftInAcc hiBits * 256 + shiftInAcc loBits := by
  have hrec : ∀ (bits : List Bool) (b : Bool),
      shiftInAcc (bits ++ [b]) = shiftInAcc bits * 2 + b.toNat := by
    intro bits b
    simp [shiftInAcc, List.foldl_append]
  have hhi : shiftInAcc hiBits < 256 := by
    have h := shiftInAcc_lt hiBits
    rw [hh] at h
    norm_num at h
    exact h
  have hlo : shiftInAcc loBits < 256 := by
    have h := shiftInAcc_lt loBits
    rw [hl] at h
    norm_num at h
    exact h
  have ehi : shiftIn hiBits = shiftInAcc hiBits := Nat.mod_eq_of_lt hhi
  have elo : shiftIn loBits = shiftInAcc loBits := Nat.mod_eq_of_lt hlo
  refine ⟨hrec, ehi, elo, ?_⟩
  show shiftIn hiBits * 256 ||| shiftIn loBits = shiftInAcc hiBits * 256 + shiftInAcc loBits
  rw [ehi, elo]
  exact mul_256_lor_eq_add _ _ hlo

/-- Witness for the amended C6 on the byte pair 0b10000010 (130) high,
0b01001101 (77) low. -/
theorem shiftIn_msb_first_getData16_witness :
    (∀ (bits : List Bool) (b : Bool),
      shiftInAcc (bits ++ [b]) = shiftInAcc bits * 2 + b.toNat) ∧
    shiftIn [true, false, false, false, false, false, true, false] =
      shiftInAcc [true, false, false, false, false, false, true, false] ∧
    shiftIn [false, true, false, false, true, true, false, true] =
      shiftInAcc [false, true, false, false, true, true, false, true] ∧
    getData16SHT [true, false, false, false, false, false, true, false]
        [false, true, false, false, true, true, false, true] =
      shiftInAcc [true, false, false, false, false, false, true, false] * 256 +
        shiftInAcc [false, true, false, false, true, true, false, true] :=
  shiftIn_msb_first_getData16
    [true, false, false, false, false, false, true, false]
    [false, true, false, false, true, true, false, true] rfl rfl

/-! ## C7 -/

/-- C7: for every behavior of the data line the polling loop of
`waitForResultSHT` stops (its guard is false at the iteration it
returns on), and when the line never reads the ready (low) level it
returns at the first poll at which the monotonic clock shows at least
the timeout interval elapsed since entry — and no later: every earlier
poll saw an elapsed time still below the timeout. -/
theorem waitForResultSHT_terminates_timeout (e : Env) :
    waitGuard e.dataLine e.ms e.start e.timeout (waitForResultSHT e) = false ∧
    ((∀ k, e.dataLine k = true) →
      e.timeout ≤ e.ms (waitForResultSHT e) - e.start ∧
      ∀ j < waitForResultSHT e, e.ms j - e.start < e.timeout) := by
  refine ⟨Nat.find_spec (waitGuard_exists_false e), ?_⟩
  intro hd
  constructor
  · have h : waitGuard e.dataLine e.ms e.start e.timeout (waitForResultSHT e) = false :=
      Nat.find_spec (waitGuard_exists_false e)
    simp [waitGuard, hd] at h
    omega
  · intro j hj
    have h : ¬ waitGuard e.dataLine e.ms e.start e.timeout j = false :=
      Nat.find_min (waitGuard_exists_false e) hj
    simp [waitGuard, hd] at h
    exact h

/-- A data line that never reads ready, polled against a strictly
increasing millisecond clock with a 3 ms timeout. -/
def envNeverReady : Env where
  ack1 := true
  ack2 := true
  dataLine := fun _ => true
  ms := fun k => k
  start := 0
  timeout := 3
  msUnbounded := fun n => ⟨n, Nat.le_refl n⟩
  hiBits := List.replicate 8 false
  loBits := List.replicate 8 false

/-- Witness for C7 on a line that never reads ready. -/
theorem waitForResultSHT_terminates_timeout_witness :
    waitGuard envNeverReady.dataLine envNeverReady.ms envNeverReady.start
        envNeverReady.timeout (waitForResultSHT envNeverReady) = false ∧
    (envNeverReady.timeout ≤
        envNeverReady.ms (waitForResultSHT envNeverReady) - envNeverReady.start ∧
      ∀ j < waitForResultSHT envNeverReady,
        envNeverReady.ms j - envNeverReady.start < envNeverReady.timeout) :=
  ⟨(waitForResultSHT_terminates_timeout envNeverReady).1,
    (waitForResultSHT_terminates_timeout envNeverReady).2 (fun _ => rfl)⟩

/-! ## C8 -/

/-- C8: neither fault condition is surfaced: the acknowledgment bits
read by `sendCommandSHT` and the entire data-line/clock behavior seen by
the poll (ready or timed out) have no influence on the returned value,
and with initialized coefficients `readTemperatureC`, `readTemperatureF`
and `readHumidity` always return a value — two environments that sample
the same data bits but differ arbitrarily in acknowledgment bits and in
ready/timeout behavior produce identical results, so a failed or
timed-out transaction is indistinguishable. -/
theorem silent_failure_reads_total (s : SHT1xState) (e eBad : Env) (oC oF : ℚ)
    (hC : s.coeffs.D1C = some oC) (hF : s.coeffs.D1F = some oF)
    (hhi : eBad.hiBits = e.hiBits) (hlo : eBad.loBits = e.loBits) :
    (readTemperatureC s e).1.isSome = true ∧
    (readTemperatureF s e).1.isSome = true ∧
    (readHumidity s e).1.isSome = true ∧
    (readTemperatureC s eBad).1 = (readTemperatureC s e).1 ∧
    (readTemperatureF s eBad).1 = (readTemperatureF s e).1 ∧
    (readHumidity s eBad).1 = (readHumidity s e).1 := by
  refine ⟨?_, ?_, ?_, ?_, ?_, ?_⟩ <;>
    simp [readTemperatureC, readTemperatureF, readHumidity, readInTemperature,
      readInHumidity, parseTemperatureC, parseTemperatureF, parseHumidity,
      sendCommandSHT, hC, hF, hhi, hlo]

/-- A clean transaction: acknowledgments low (expected), data line
immediately ready, and a fixed pair of sampled bytes. -/
def envGood : Env where
  ack1 := false
  ack2 := false
  dataLine := fun _ => false
  ms := fun k => k
  start := 0
  timeout := 1000
  msUnbounded := fun n => ⟨n, Nat.le_refl n⟩
  hiBits := [true, false, false, false, false, false, true, false]
  loBits := [false, true, false, false, true, true, false, true]

/-- A faulty transaction sampling the same bytes: unexpected (high)
acknowledgment bits and a data line that never reads ready, so the poll
runs into its timeout. -/
def envBad : Env where
  ack1 := true
  ack2 := true
  dataLine := fun _ => true
  ms := fun k => k
  start := 0
  timeout := 1000
  msUnbounded := fun n => ⟨n, Nat.le_refl n⟩
  hiBits := [true, false, false, false, false, false, true, false]
  loBits := [false, true, false, false, true, true, false, true]

/-- An instance state calibrated at the default 5 V with a zero cached
raw temperature. -/
def stateAt5 : SHT1xState := ⟨setConversionCoeffs 5, 0⟩

/-- Witness for C8: the clean and the faulty transaction return the same
values, and all three reads return a value. -/
theorem silent_failure_reads_total_witness :
    (readTemperatureC stateAt5 envGood).1.isSome = true ∧
    (readTemperatureF stateAt5 envGood).1.isSome = true ∧
    (readHumidity stateAt5 envGood).1.isSome = true ∧
    (readTemperatureC stateAt5 envBad).1 = (readTemperatureC stateAt5 envGood).1 ∧
    (readTemperatureF stateAt5 envBad).1 = (readTemperatureF stateAt5 envGood).1 ∧
    (readHumidity stateAt5 envBad).1 = (readHumidity stateAt5 envGood).1 := by
  have hC : stateAt5.coeffs.D1C = some (-40.1) := by
    norm_num [stateAt5, setConversionCoeffs, selectIdx, vals, linearInterpolation, coeffsC]
  have hF : stateAt5.coeffs.D1F = some (-40.2) := by
    norm_num [stateAt5, setConversionCoeffs, selectIdx, vals, linearInterpolation, coeffsF]
  exact silent_failure_reads_total stateAt5 envGood envBad (-40.1) (-40.2) hC hF rfl rfl

/-! ## C9 -/

/-- C9: only a temperature read updates the cached raw temperature:
`readInTemperature` stores the 16-bit word it reads into
`_temperatureRaw` and returns that same value (leaving the calibration
coefficients alone), while `readInHumidity` and `readHumidity` leave the
whole instance state — in particular `_temperatureRaw` — unchanged, and
`readHumidity` converts against the cached raw temperature, so a second
humidity read still uses the same cached temperature. -/
theorem temperatureRaw_frame (s : SHT1xState) (e e2 : Env) :
    (readInTemperature s e).2.temperatureRaw = getData16SHT e.hiBits e.loBits ∧
    (readInTemperature s e).1 = (readInTemperature s e).2.temperatureRaw ∧
    (readInTemperature s e).2.coeffs = s.coeffs ∧
    (readInHumidity s e).2 = s ∧
    (readHumidity s e).2 = s ∧
    (readHumidity s e).1 =
      parseHumidity s.coeffs s.temperatureRaw (getData16SHT e.hiBits e.loBits) ∧
    (readHumidity (readHumidity s e).2 e2).1 =
      parseHumidity s.coeffs s.temperatureRaw (getData16SHT e2.hiBits e2.loBits) :=
  ⟨rfl, rfl, rfl, rfl, rfl, rfl, rfl⟩
